import Mathlib

/-!
Shallow embedding of the SplatViewer view-state coordinator
(`splat-viewer.js`): mode flags, perspective routing, orientation
calibration, memory monitoring and the load lifecycle, with JS numbers
modelled as exact rationals and the external renderer service, DOM
surface service and memory probe modelled as environment parameters.
-/

namespace ParallaxPhoto

/-- A 3-component vector, standing in for a JS `[x, y, z]` array or a
three.js `Vector3`. -/
structure Vec3 where
  x : ℚ
  y : ℚ
  z : ℚ
deriving DecidableEq, Repr

/-- The renderer's camera: position, the target of the last `lookAt`
call, and the field of view. -/
structure Camera where
  position : Vec3
  lookAtTarget : Vec3
  fov : ℚ
deriving DecidableEq, Repr

/-- The renderer's orbit controls (`viewer.controls`): accumulated yaw
and pitch from `rotateLeft` / `rotateUp`. -/
structure Controls where
  yaw : ℚ
  pitch : ℚ
deriving DecidableEq, Repr

/-- The external `GaussianSplats3D.Viewer` renderer handle.  The camera
and controls it exposes are opaque to the coordinator, so they are data
of the handle. -/
structure Viewer where
  camera : Option Camera
  controls : Option Controls
  started : Bool
deriving DecidableEq, Repr

/-- The 2-D CSS-style transform applied to a placeholder or fallback
surface: the values interpolated into the `transform` style string. -/
structure Transform2D where
  translateX : ℚ
  translateY : ℚ
  rotateY : ℚ
  rotateX : ℚ
  scale : ℚ
deriving DecidableEq, Repr

/-- An overlay surface element (placeholder image or fallback image):
its last applied 2-D transform (none before any is applied) and its
opacity. -/
structure Surface where
  transform : Option Transform2D
  opacity : ℚ
deriving DecidableEq, Repr

/-- The loading-bar element: width percentage and opacity. -/
structure LoadingBar where
  width : ℚ
  opacity : ℚ
deriving DecidableEq, Repr

/-- The `{ beta, gamma }` pair stored as `_baseOrientation`. -/
structure Orientation2 where
  beta : ℚ
  gamma : ℚ
deriving DecidableEq, Repr

/-- The 2-D perspective offset stored as `_currentPerspective`. -/
structure Offset2 where
  x : ℚ
  y : ℚ
deriving DecidableEq, Repr

/-- The constructor options of `SplatViewer` that the core state machine
reads (URL resolution, camera configuration, perspective intensity,
memory thresholds, loading bar, and whether an `onFallback` callback was
provided). -/
structure Options where
  plyUrl : Option String
  placeholderImage : Option String
  sceneId : Option String
  defaultPlyUrl : String
  defaultPlaceholder : String
  cameraPosition : Vec3
  cameraLookAt : Vec3
  fov : ℚ
  enableControls : Bool
  perspectiveIntensity : ℚ
  memoryThresholdMB : ℚ
  memoryCheckInterval : ℚ
  showLoadingBar : Bool
  onFallback : Bool
deriving DecidableEq, Repr

/-- The mutable state of one `SplatViewer` instance.  `onFallbackCalls`
counts invocations of the `onFallback` callback (the observable event
trace of fallback-entered notifications). -/
structure SplatViewer where
  options : Options
  viewer : Option Viewer
  isLoaded : Bool
  isLoading : Bool
  isFallbackMode : Bool
  _orbitSpeed : ℚ
  _panSpeed : ℚ
  _zoomSpeed : ℚ
  _baseOrientation : Orientation2
  _hasBaseOrientation : Bool
  _initialCameraPosition : Vec3
  _initialCameraLookAt : Vec3
  _currentPerspective : Offset2
  _placeholder : Option Surface
  _fallbackImage : Option Surface
  _loadingBar : Option LoadingBar
  _memoryCheckTimer : Bool
  _imageUrl : Option String
  _plyUrl : Option String
  onFallbackCalls : Nat
deriving DecidableEq, Repr

/-- The `SplatViewer` constructor body: all flags false, no handles, no
surfaces, base pose copied from the configured camera options. -/
def mkSplatViewer (opts : Options) : SplatViewer where
  options := opts
  viewer := none
  isLoaded := false
  isLoading := false
  isFallbackMode := false
  _orbitSpeed := 0.01
  _panSpeed := 0.1
  _zoomSpeed := 1
  _baseOrientation := { beta := 0, gamma := 0 }
  _hasBaseOrientation := false
  _initialCameraPosition := opts.cameraPosition
  _initialCameraLookAt := opts.cameraLookAt
  _currentPerspective := { x := 0, y := 0 }
  _placeholder := none
  _fallbackImage := none
  _loadingBar := none
  _memoryCheckTimer := false
  _imageUrl := none
  _plyUrl := none
  onFallbackCalls := 0

/-- The `camera` getter: `this.viewer?.camera`. -/
def SplatViewer.camera (v : SplatViewer) : Option Camera :=
  v.viewer.bind Viewer.camera

/-- Write an updated camera back into the held viewer (the JS code
mutates `this.camera` in place; here the update is threaded through the
`viewer` field). -/
def SplatViewer.withCamera (v : SplatViewer) (cam : Camera) : SplatViewer :=
  match v.viewer with
  | none => v
  | some vw => { v with viewer := some { vw with camera := some cam } }

/-- `_setupPlaceholder`: creates the placeholder overlay surface and,
when `showLoadingBar` is set, the loading bar at width 0. -/
def SplatViewer.setupPlaceholder (v : SplatViewer) : SplatViewer :=
  let v1 := { v with _placeholder := some { transform := none, opacity := 1 } }
  if v1.options.showLoadingBar then
    { v1 with _loadingBar := some { width := 0, opacity := 1 } }
  else v1

/-- `_setupFallbackImage`: creates the fallback overlay surface with
opacity 0. -/
def SplatViewer.setupFallbackImage (v : SplatViewer) : SplatViewer :=
  { v with _fallbackImage := some { transform := none, opacity := 0 } }

/-- `_applyPlaceholderPerspective`: computes the 2-D transform from
`_currentPerspective` and the intensity rescaled by 10, and applies it
to the placeholder surface (a no-op when no placeholder exists). -/
def SplatViewer.applyPlaceholderPerspective (v : SplatViewer) : SplatViewer :=
  match v._placeholder with
  | none => v
  | some ph =>
    let x := v._currentPerspective.x
    let y := v._currentPerspective.y
    let intensity := v.options.perspectiveIntensity * 10
    let t : Transform2D :=
      { translateX := x * intensity * 2
        translateY := y * intensity * 2
        rotateY := x * intensity * 0.5
        rotateX := -y * intensity * 0.5
        scale := 1 + |x * 0.02| + |y * 0.02| }
    { v with _placeholder := some { ph with transform := some t } }

/-- `_applyFallbackPerspective`: same 2-D transform computation as the
placeholder variant, applied to the fallback surface (a no-op when no
fallback surface exists). -/
def SplatViewer.applyFallbackPerspective (v : SplatViewer) : SplatViewer :=
  match v._fallbackImage with
  | none => v
  | some fb =>
    let x := v._currentPerspective.x
    let y := v._currentPerspective.y
    let intensity := v.options.perspectiveIntensity * 10
    let t : Transform2D :=
      { translateX := x * intensity * 2
        translateY := y * intensity * 2
        rotateY := x * intensity * 0.5
        rotateX := -y * intensity * 0.5
        scale := 1 + |x * 0.02| + |y * 0.02| }
    { v with _fallbackImage := some { fb with transform := some t } }

/-- `_stopMemoryMonitoring`: cancels the recurring timer if one is
active; idempotent. -/
def SplatViewer.stopMemoryMonitoring (v : SplatViewer) : SplatViewer :=
  if v._memoryCheckTimer then { v with _memoryCheckTimer := false } else v

/-- `_startMemoryMonitoring`: a no-op when the host provides no
`performance.memory` probe, otherwise arms the recurring timer. -/
def SplatViewer.startMemoryMonitoring (v : SplatViewer) (hasMemoryProbe : Bool) :
    SplatViewer :=
  if !hasMemoryProbe then v else { v with _memoryCheckTimer := true }

/-- `_activateFallbackMode`: guarded one-shot transition into Fallback —
stops the monitor, disposes and drops the renderer handle, shows the
fallback surface, hides the loading bar, re-applies the current
perspective to the fallback surface, and fires `onFallback` when a
callback was provided. -/
def SplatViewer.activateFallbackMode (v : SplatViewer) : SplatViewer :=
  if v.isFallbackMode then v
  else
    let v1 := { v with isFallbackMode := true }
    let v2 := v1.stopMemoryMonitoring
    let v3 := { v2 with viewer := none }
    let v4 := match v3._fallbackImage with
      | some fb => { v3 with _fallbackImage := some { fb with opacity := 1 } }
      | none => v3
    let v5 := match v4._loadingBar with
      | some lb => { v4 with _loadingBar := some { lb with opacity := 0 } }
      | none => v4
    let v6 := v5.applyFallbackPerspective
    if v6.options.onFallback then { v6 with onFallbackCalls := v6.onFallbackCalls + 1 }
    else v6

/-- One firing of the `setInterval` memory-check callback, given the
sampled `_getMemoryUsageMB()` value (`none` when the probe is absent).
The JS guard `memoryMB && memoryMB > threshold` treats a 0 sample as
falsy. -/
def SplatViewer.memoryCheckTick (v : SplatViewer) (memoryMB : Option ℚ) :
    SplatViewer :=
  match memoryMB with
  | none => v
  | some m =>
    if m ≠ 0 ∧ v.options.memoryThresholdMB < m then v.activateFallbackMode else v

/-- `forceFallback()`. -/
def SplatViewer.forceFallback (v : SplatViewer) : SplatViewer :=
  v.activateFallbackMode

/-- `perspective(offsetX, offsetY, offsetZ)`: stores the offset, then
routes by mode — placeholder 2-D transform while loading, fallback 2-D
transform in fallback mode, otherwise the 3-D camera branch relative to
the stored base pose with the look-at reset to the base look-at. -/
def SplatViewer.perspective (v : SplatViewer) (offsetX offsetY offsetZ : ℚ) :
    SplatViewer :=
  let v1 := { v with _currentPerspective := { x := offsetX, y := offsetY } }
  if v1.isLoading ∧ v1._placeholder.isSome then v1.applyPlaceholderPerspective
  else if v1.isFallbackMode then v1.applyFallbackPerspective
  else
    match v1.camera with
    | none => v1
    | some cam =>
      let intensity := v1.options.perspectiveIntensity
      v1.withCamera
        { cam with
          position :=
            { x := v1._initialCameraPosition.x + offsetX * intensity
              y := v1._initialCameraPosition.y + offsetY * intensity
              z := v1._initialCameraPosition.z + offsetZ * intensity * 0.5 }
          lookAtTarget := v1._initialCameraLookAt }

/-- `calibrateDeviceMotion()`: discards the orientation baseline so the
next sample recalibrates. -/
def SplatViewer.calibrateDeviceMotion (v : SplatViewer) : SplatViewer :=
  { v with _hasBaseOrientation := false }

/-- One delivery of a `deviceorientation` event to the handler installed
by `_setupDeviceMotion`: ignored entirely outside the loading / loaded /
fallback modes and when an axis reading is null; the first accepted
sample is captured as the baseline; later samples clamp the per-axis
delta to ±30 and normalise it to a perspective offset in [-0.3, 0.3]. -/
def SplatViewer.deviceMotionSample (v : SplatViewer) (beta gamma : Option ℚ) :
    SplatViewer :=
  if ¬v.isLoading ∧ ¬v.isLoaded ∧ ¬v.isFallbackMode then v
  else
    match beta, gamma with
    | some b, some g =>
      if ¬v._hasBaseOrientation then
        { v with
          _baseOrientation := { beta := b, gamma := g }
          _hasBaseOrientation := true }
      else
        let deltaBeta := max (-30) (min 30 (b - v._baseOrientation.beta))
        let deltaGamma := max (-30) (min 30 (g - v._baseOrientation.gamma))
        let offsetX := deltaGamma / 30 * 0.3
        let offsetY := deltaBeta / 30 * 0.3
        v.perspective offsetX offsetY 0
    | _, _ => v

/-- `pan(deltaX, deltaY)`: no-op in fallback or loading mode or without
a camera; otherwise shifts the stored base position and moves the camera
there. -/
def SplatViewer.pan (v : SplatViewer) (deltaX deltaY : ℚ) : SplatViewer :=
  if v.isFallbackMode ∨ v.isLoading then v
  else
    match v.camera with
    | none => v
    | some cam =>
      let pos : Vec3 :=
        { x := v._initialCameraPosition.x - deltaX * v._panSpeed
          y := v._initialCameraPosition.y + deltaY * v._panSpeed
          z := v._initialCameraPosition.z }
      let v1 := { v with _initialCameraPosition := pos }
      v1.withCamera { cam with position := pos }

/-- `rotate(deltaYaw, deltaPitch)`: no-op in fallback or loading mode or
without orbit controls; otherwise drives the controls by the scaled
deltas. -/
def SplatViewer.rotate (v : SplatViewer) (deltaYaw deltaPitch : ℚ) : SplatViewer :=
  if v.isFallbackMode ∨ v.isLoading then v
  else
    match v.viewer with
    | none => v
    | some vw =>
      match vw.controls with
      | none => v
      | some c =>
        let c1 : Controls :=
          { yaw := c.yaw + deltaYaw * v._orbitSpeed
            pitch := c.pitch + deltaPitch * v._orbitSpeed }
        { v with viewer := some { vw with controls := some c1 } }

/-- `zoom(delta)`: no-op in fallback or loading mode or without a
camera; otherwise shifts the stored base z and moves the camera there. -/
def SplatViewer.zoom (v : SplatViewer) (delta : ℚ) : SplatViewer :=
  if v.isFallbackMode ∨ v.isLoading then v
  else
    match v.camera with
    | none => v
    | some cam =>
      let pos : Vec3 :=
        { v._initialCameraPosition with
          z := v._initialCameraPosition.z + delta * v._zoomSpeed }
      let v1 := { v with _initialCameraPosition := pos }
      v1.withCamera { cam with position := pos }

/-- `reset()`: zeroes `_currentPerspective`, then routes by mode —
re-applies the zero transform to the placeholder while loading or to the
fallback surface in fallback mode; in the camera branch restores the
base pose from the originally configured options, moves the camera
there, and recalibrates device motion. -/
def SplatViewer.reset (v : SplatViewer) : SplatViewer :=
  let v1 := { v with _currentPerspective := { x := 0, y := 0 } }
  if v1.isLoading ∧ v1._placeholder.isSome then v1.applyPlaceholderPerspective
  else if v1.isFallbackMode then v1.applyFallbackPerspective
  else
    match v1.camera with
    | none => v1
    | some cam =>
      let v2 := { v1 with
        _initialCameraPosition := v1.options.cameraPosition
        _initialCameraLookAt := v1.options.cameraLookAt }
      let v3 := v2.withCamera
        { cam with
          position := v2._initialCameraPosition
          lookAtTarget := v2._initialCameraLookAt }
      v3.calibrateDeviceMotion

/-- The outcomes of the external collaborators consumed by one `load()`
call: the descriptor-lookup result (when a `sceneId` is configured), the
camera and controls the created renderer handle exposes, whether the
renderer-service scene load rejects, and whether the host has a memory
probe. -/
structure LoadEnv where
  fetchSceneResult : Except String (Option String × Option String)
  rendererCamera : Option Camera
  rendererControls : Option Controls
  sceneLoadError : Option String
  hasMemoryProbe : Bool
deriving Repr

/-- The `catch` block of `load()`: clears `isLoading` and rethrows (the
returned error is the rejection surfaced to the caller). -/
def SplatViewer.loadCatch (v : SplatViewer) (e : String) :
    SplatViewer × Option String :=
  ({ v with isLoading := false }, some e)

/-- `load(plyUrl)`: sets `isLoading`, resolves the asset URLs (direct or
via the descriptor lookup, falling back to the default demo scene),
creates the placeholder and fallback surfaces when an image URL exists,
creates the renderer handle, awaits the scene load, and on success sets
the field of view, starts the renderer, flips to loaded, captures the
base position from the renderer's resolved camera, starts memory
monitoring and completes the loading bar.  Any rejection runs the
`catch` block on the state as of the throw point.  Returns the resulting
state and `some e` when the promise rejects. -/
def SplatViewer.load (v0 : SplatViewer) (plyUrlArg : Option String)
    (env : LoadEnv) : SplatViewer × Option String :=
  let v := { v0 with isLoading := true }
  let resolved : Except (SplatViewer × String) SplatViewer :=
    if v.options.sceneId.isSome then
      match env.fetchSceneResult with
      | .error e => .error (v, e)
      | .ok (img, ply) => .ok { v with _imageUrl := img, _plyUrl := ply }
    else
      .ok { v with
        _imageUrl := v.options.placeholderImage
        _plyUrl := match plyUrlArg with
          | some u => some u
          | none => v.options.plyUrl }
  match resolved with
  | .error (v1, e) => v1.loadCatch e
  | .ok v1 =>
    let v2 :=
      if v1._plyUrl.isNone then
        { v1 with
          _plyUrl := some v1.options.defaultPlyUrl
          _imageUrl := match v1._imageUrl with
            | some u => some u
            | none => some v1.options.defaultPlaceholder }
      else v1
    let v3 :=
      if v2._imageUrl.isSome then (v2.setupPlaceholder).setupFallbackImage
      else v2
    let v4 := { v3 with
      viewer := some
        { camera := env.rendererCamera
          controls := env.rendererControls
          started := false } }
    match env.sceneLoadError with
    | some e => v4.loadCatch e
    | none =>
      let v5 := match v4.viewer with
        | some vw =>
          match vw.camera with
          | some cam =>
            let cam1 : Camera := { cam with fov := v4.options.fov }
            let vw1 : Viewer := { vw with camera := some cam1 }
            { v4 with viewer := some vw1 }
          | none => v4
        | none => v4
      let v6 := match v5.viewer with
        | some vw => { v5 with viewer := some { vw with started := true } }
        | none => v5
      let v7 := { v6 with isLoaded := true, isLoading := false }
      let v8 := match v7.camera with
        | some cam => { v7 with _initialCameraPosition := cam.position }
        | none => v7
      let v9 := v8.startMemoryMonitoring env.hasMemoryProbe
      let v10 := match v9._loadingBar with
        | some lb => { v9 with _loadingBar := some { lb with width := 100 } }
        | none => v9
      (v10, none)

/-- Scale factor of the transform last applied to the placeholder. -/
def SplatViewer.placeholderScale (v : SplatViewer) : Option ℚ :=
  v._placeholder.bind fun s => s.transform.map Transform2D.scale

/-- Scale factor of the transform last applied to the fallback surface. -/
def SplatViewer.fallbackScale (v : SplatViewer) : Option ℚ :=
  v._fallbackImage.bind fun s => s.transform.map Transform2D.scale

/-! Concrete fixtures: the default demo configuration, a renderer whose
resolved camera pose differs from the configured one, and the session
states reached by a successful load, a fallback downgrade, and a load
whose renderer-service scene load rejects. -/

/-- Demo options: direct URLs, placeholder image, default thresholds. -/
def demoOptions : Options where
  plyUrl := some "scene.ply"
  placeholderImage := some "photo.jpg"
  sceneId := none
  defaultPlyUrl := "default.ply"
  defaultPlaceholder := "default.jpg"
  cameraPosition := { x := 0, y := 0, z := 0 }
  cameraLookAt := { x := 0, y := 0, z := 50 }
  fov := 48.5
  enableControls := true
  perspectiveIntensity := 0.5
  memoryThresholdMB := 512
  memoryCheckInterval := 2000
  showLoadingBar := true
  onFallback := true

/-- The camera the renderer resolves after loading the scene (its pose
differs from the configured `cameraPosition`, as after auto-centering). -/
def cam0 : Camera where
  position := { x := 1, y := 2, z := 3 }
  lookAtTarget := { x := 0, y := 0, z := 50 }
  fov := 60

/-- A load environment in which every collaborator succeeds. -/
def happyEnv : LoadEnv where
  fetchSceneResult := .ok (none, none)
  rendererCamera := some cam0
  rendererControls := some { yaw := 0, pitch := 0 }
  sceneLoadError := none
  hasMemoryProbe := true

/-- A load environment in which the renderer-service scene load rejects
after the renderer handle has been created. -/
def failEnv : LoadEnv where
  fetchSceneResult := .ok (none, none)
  rendererCamera := some cam0
  rendererControls := some { yaw := 0, pitch := 0 }
  sceneLoadError := some "scene load rejected"
  hasMemoryProbe := true

/-- The session state after a successful `load()` (Live). -/
def liveState : SplatViewer := ((mkSplatViewer demoOptions).load none happyEnv).1

/-- The session state after a successful load followed by a fallback
downgrade. -/
def fallbackState : SplatViewer := liveState.forceFallback

/-- The session state after a `load()` whose scene load rejected. -/
def orphanState : SplatViewer := ((mkSplatViewer demoOptions).load none failEnv).1

/-- The camera held by `liveState` (the renderer's resolved camera with
the configured field of view applied). -/
def camLive : Camera where
  position := { x := 1, y := 2, z := 3 }
  lookAtTarget := { x := 0, y := 0, z := 50 }
  fov := 48.5

/-- A calibrated Live session (orientation baseline captured). -/
def vCal : SplatViewer :=
  { liveState with
    _hasBaseOrientation := true
    _baseOrientation := { beta := 7, gamma := 7 } }

/-- A Fallback session holding a calibrated orientation baseline. -/
def fbCalState : SplatViewer := { fallbackState with _hasBaseOrientation := true }

/-- The placeholder surface created during a load. -/
def surfPh : Surface where
  transform := none
  opacity := 1

/-- The fallback surface created during a load (hidden). -/
def surfFb : Surface where
  transform := none
  opacity := 0

/-- The demo configuration routed through the descriptor-lookup API. -/
def apiOptions : Options := { demoOptions with sceneId := some "scene-1" }

/-- A load environment whose descriptor lookup (asset resolution)
rejects. -/
def fetchFailEnv : LoadEnv where
  fetchSceneResult := .error "fetch failed"
  rendererCamera := some cam0
  rendererControls := some { yaw := 0, pitch := 0 }
  sceneLoadError := none
  hasMemoryProbe := true

/-! Helper lemmas: the 2-D transform appliers only touch their own
surface field. -/

@[simp]
theorem applyFallback_viewer (v : SplatViewer) :
    (v.applyFallbackPerspective).viewer = v.viewer := by
  cases hfb : v._fallbackImage <;> simp [SplatViewer.applyFallbackPerspective, hfb]

@[simp]
theorem applyFallback_isLoaded (v : SplatViewer) :
    (v.applyFallbackPerspective).isLoaded = v.isLoaded := by
  cases hfb : v._fallbackImage <;> simp [SplatViewer.applyFallbackPerspective, hfb]

@[simp]
theorem applyFallback_isLoading (v : SplatViewer) :
    (v.applyFallbackPerspective).isLoading = v.isLoading := by
  cases hfb : v._fallbackImage <;> simp [SplatViewer.applyFallbackPerspective, hfb]

@[simp]
theorem applyFallback_isFallbackMode (v : SplatViewer) :
    (v.applyFallbackPerspective).isFallbackMode = v.isFallbackMode := by
  cases hfb : v._fallbackImage <;> simp [SplatViewer.applyFallbackPerspective, hfb]

@[simp]
theorem applyFallback_options (v : SplatViewer) :
    (v.applyFallbackPerspective).options = v.options := by
  cases hfb : v._fallbackImage <;> simp [SplatViewer.applyFallbackPerspective, hfb]

@[simp]
theorem applyFallback_timer (v : SplatViewer) :
    (v.applyFallbackPerspective)._memoryCheckTimer = v._memoryCheckTimer := by
  cases hfb : v._fallbackImage <;> simp [SplatViewer.applyFallbackPerspective, hfb]

@[simp]
theorem applyFallback_calls (v : SplatViewer) :
    (v.applyFallbackPerspective).onFallbackCalls = v.onFallbackCalls := by
  cases hfb : v._fallbackImage <;> simp [SplatViewer.applyFallbackPerspective, hfb]

@[simp]
theorem applyFallback_currentPerspective (v : SplatViewer) :
    (v.applyFallbackPerspective)._currentPerspective = v._currentPerspective := by
  cases hfb : v._fallbackImage <;> simp [SplatViewer.applyFallbackPerspective, hfb]

@[simp]
theorem applyFallback_hasBase (v : SplatViewer) :
    (v.applyFallbackPerspective)._hasBaseOrientation = v._hasBaseOrientation := by
  cases hfb : v._fallbackImage <;> simp [SplatViewer.applyFallbackPerspective, hfb]

@[simp]
theorem applyFallback_basePos (v : SplatViewer) :
    (v.applyFallbackPerspective)._initialCameraPosition = v._initialCameraPosition := by
  cases hfb : v._fallbackImage <;> simp [SplatViewer.applyFallbackPerspective, hfb]

@[simp]
theorem applyFallback_baseLook (v : SplatViewer) :
    (v.applyFallbackPerspective)._initialCameraLookAt = v._initialCameraLookAt := by
  cases hfb : v._fallbackImage <;> simp [SplatViewer.applyFallbackPerspective, hfb]

@[simp]
theorem applyFallback_placeholder (v : SplatViewer) :
    (v.applyFallbackPerspective)._placeholder = v._placeholder := by
  cases hfb : v._fallbackImage <;> simp [SplatViewer.applyFallbackPerspective, hfb]

@[simp]
theorem applyPlaceholder_viewer (v : SplatViewer) :
    (v.applyPlaceholderPerspective).viewer = v.viewer := by
  cases hph : v._placeholder <;> simp [SplatViewer.applyPlaceholderPerspective, hph]

@[simp]
theorem applyPlaceholder_isLoaded (v : SplatViewer) :
    (v.applyPlaceholderPerspective).isLoaded = v.isLoaded := by
  cases hph : v._placeholder <;> simp [SplatViewer.applyPlaceholderPerspective, hph]

@[simp]
theorem applyPlaceholder_isLoading (v : SplatViewer) :
    (v.applyPlaceholderPerspective).isLoading = v.isLoading := by
  cases hph : v._placeholder <;> simp [SplatViewer.applyPlaceholderPerspective, hph]

@[simp]
theorem applyPlaceholder_isFallbackMode (v : SplatViewer) :
    (v.applyPlaceholderPerspective).isFallbackMode = v.isFallbackMode := by
  cases hph : v._placeholder <;> simp [SplatViewer.applyPlaceholderPerspective, hph]

@[simp]
theorem applyPlaceholder_options (v : SplatViewer) :
    (v.applyPlaceholderPerspective).options = v.options := by
  cases hph : v._placeholder <;> simp [SplatViewer.applyPlaceholderPerspective, hph]

@[simp]
theorem applyPlaceholder_timer (v : SplatViewer) :
    (v.applyPlaceholderPerspective)._memoryCheckTimer = v._memoryCheckTimer := by
  cases hph : v._placeholder <;> simp [SplatViewer.applyPlaceholderPerspective, hph]

@[simp]
theorem applyPlaceholder_calls (v : SplatViewer) :
    (v.applyPlaceholderPerspective).onFallbackCalls = v.onFallbackCalls := by
  cases hph : v._placeholder <;> simp [SplatViewer.applyPlaceholderPerspective, hph]

@[simp]
theorem applyPlaceholder_currentPerspective (v : SplatViewer) :
    (v.applyPlaceholderPerspective)._currentPerspective = v._currentPerspective := by
  cases hph : v._placeholder <;> simp [SplatViewer.applyPlaceholderPerspective, hph]

@[simp]
theorem applyPlaceholder_hasBase (v : SplatViewer) :
    (v.applyPlaceholderPerspective)._hasBaseOrientation = v._hasBaseOrientation := by
  cases hph : v._placeholder <;> simp [SplatViewer.applyPlaceholderPerspective, hph]

@[simp]
theorem applyPlaceholder_basePos (v : SplatViewer) :
    (v.applyPlaceholderPerspective)._initialCameraPosition = v._initialCameraPosition := by
  cases hph : v._placeholder <;> simp [SplatViewer.applyPlaceholderPerspective, hph]

@[simp]
theorem applyPlaceholder_baseLook (v : SplatViewer) :
    (v.applyPlaceholderPerspective)._initialCameraLookAt = v._initialCameraLookAt := by
  cases hph : v._placeholder <;> simp [SplatViewer.applyPlaceholderPerspective, hph]

@[simp]
theorem applyPlaceholder_fallbackImage (v : SplatViewer) :
    (v.applyPlaceholderPerspective)._fallbackImage = v._fallbackImage := by
  cases hph : v._placeholder <;> simp [SplatViewer.applyPlaceholderPerspective, hph]

/-- Entering fallback from a non-fallback state: the renderer handle is
dropped, the monitor timer is cleared, and `onFallback` fires once when
a callback is provided, while `isLoaded` / `isLoading` are untouched. -/
theorem activateFallbackMode_spec (v : SplatViewer) (h : v.isFallbackMode = false) :
    (v.activateFallbackMode).viewer = none ∧
    (v.activateFallbackMode).isFallbackMode = true ∧
    (v.activateFallbackMode)._memoryCheckTimer = false ∧
    (v.activateFallbackMode).isLoaded = v.isLoaded ∧
    (v.activateFallbackMode).isLoading = v.isLoading ∧
    (v.activateFallbackMode).onFallbackCalls =
      (if v.options.onFallback then v.onFallbackCalls + 1 else v.onFallbackCalls) := by
  cases htimer : v._memoryCheckTimer <;>
    cases hfb : v._fallbackImage <;>
      cases hlb : v._loadingBar <;>
        cases hcb : v.options.onFallback <;>
          simp [SplatViewer.activateFallbackMode, SplatViewer.stopMemoryMonitoring,
            SplatViewer.applyFallbackPerspective, h, htimer, hfb, hlb, hcb]

/-- Entering fallback is guarded: in a state already in fallback mode it
is the identity. -/
theorem activateFallbackMode_already (v : SplatViewer) (h : v.isFallbackMode = true) :
    v.activateFallbackMode = v := by
  simp [SplatViewer.activateFallbackMode, h]

/-- Claim C10: orientation samples delivered while the session is Idle
(not loading, not loaded, not in fallback) are ignored entirely — no
baseline capture, no calibration transition, no state change, so a
baseline is only ever captured once a mode with a presentation surface
or renderer is active. -/
theorem c10_idle_samples_ignored (v : SplatViewer) (beta gamma : Option ℚ)
    (h1 : v.isLoading = false) (h2 : v.isLoaded = false)
    (h3 : v.isFallbackMode = false) :
    v.deviceMotionSample beta gamma = v := by
  simp [SplatViewer.deviceMotionSample, h1, h2, h3]

/-- Witness for C10 at a freshly constructed (Idle) session. -/
theorem c10_idle_samples_ignored_witness :
    (mkSplatViewer demoOptions).deviceMotionSample (some 10) (some 20)
      = mkSplatViewer demoOptions :=
  c10_idle_samples_ignored (mkSplatViewer demoOptions) (some 10) (some 20)
    rfl rfl rfl

/-! Projection lemmas for `withCamera`, `pan` and the routing of
`perspective` / `rotate`. -/

@[simp]
theorem withCamera_basePos (v : SplatViewer) (cam : Camera) :
    (v.withCamera cam)._initialCameraPosition = v._initialCameraPosition := by
  cases hv : v.viewer <;> simp [SplatViewer.withCamera, hv]

@[simp]
theorem withCamera_baseLook (v : SplatViewer) (cam : Camera) :
    (v.withCamera cam)._initialCameraLookAt = v._initialCameraLookAt := by
  cases hv : v.viewer <;> simp [SplatViewer.withCamera, hv]

@[simp]
theorem withCamera_currentPerspective (v : SplatViewer) (cam : Camera) :
    (v.withCamera cam)._currentPerspective = v._currentPerspective := by
  cases hv : v.viewer <;> simp [SplatViewer.withCamera, hv]

@[simp]
theorem withCamera_hasBase (v : SplatViewer) (cam : Camera) :
    (v.withCamera cam)._hasBaseOrientation = v._hasBaseOrientation := by
  cases hv : v.viewer <;> simp [SplatViewer.withCamera, hv]

/-- When a camera is held, `withCamera` installs the given camera. -/
theorem withCamera_camera (v : SplatViewer) (vw : Viewer) (cam : Camera)
    (hv : v.viewer = some vw) : (v.withCamera cam).camera = some cam := by
  simp [SplatViewer.withCamera, SplatViewer.camera, hv]

/-- The effect of `pan` on the stored base pose when the session is
neither in fallback nor loading and a camera is held. -/
theorem pan_spec (v : SplatViewer) (cam : Camera) (dx dy : ℚ)
    (h1 : v.isFallbackMode = false) (h2 : v.isLoading = false)
    (hcam : v.camera = some cam) :
    (v.pan dx dy)._initialCameraPosition =
      { x := v._initialCameraPosition.x - dx * v._panSpeed
        y := v._initialCameraPosition.y + dy * v._panSpeed
        z := v._initialCameraPosition.z } := by
  unfold SplatViewer.pan
  simp [h1, h2, hcam]

/-- Counterexample to claim C4: in a Live session, `pan` mutates the
stored base pose (`_initialCameraPosition`), so `basePose` is not left
untouched by every camera operation between `load()` and the next
`reset()`/`load()`. -/
theorem c4_counterexample :
    (liveState.pan 1 0)._initialCameraPosition ≠ liveState._initialCameraPosition := by
  have hcam : liveState.camera = some camLive := rfl
  have h := pan_spec liveState _ 1 0 rfl rfl hcam
  intro hcontra
  rw [hcontra] at h
  have hx := congrArg Vec3.x h
  have h1 : liveState._initialCameraPosition.x = 1 := rfl
  have h2 : liveState._panSpeed = 0.1 := rfl
  rw [h1, h2] at hx
  norm_num at hx

/-- `perspective` leaves the stored base position unchanged. -/
theorem perspective_basePos (v : SplatViewer) (ox oy oz : ℚ) :
    (v.perspective ox oy oz)._initialCameraPosition = v._initialCameraPosition := by
  simp only [SplatViewer.perspective]
  split
  · simp
  · split
    · simp
    · split
      · simp
      · simp

/-- `perspective` leaves the stored base look-at unchanged. -/
theorem perspective_baseLook (v : SplatViewer) (ox oy oz : ℚ) :
    (v.perspective ox oy oz)._initialCameraLookAt = v._initialCameraLookAt := by
  simp only [SplatViewer.perspective]
  split
  · simp
  · split
    · simp
    · split
      · simp
      · simp

/-- `rotate` leaves the stored base pose unchanged. -/
theorem rotate_basePose (v : SplatViewer) (a b : ℚ) :
    (v.rotate a b)._initialCameraPosition = v._initialCameraPosition ∧
    (v.rotate a b)._initialCameraLookAt = v._initialCameraLookAt := by
  unfold SplatViewer.rotate
  constructor <;>
    · split
      · rfl
      · split
        · rfl
        · split
          · rfl
          · rfl

/-- Claim C4 (amended): `perspective` — which always computes the camera
position relative to the stored base pose — and `rotate` never modify
the stored base pose; but `pan` and `zoom` do shift it, so immutability
holds only for `perspective`/`rotate` until the next `reset()` or
`load()`. -/
theorem c4_amended_basepose_preserved (v : SplatViewer) (ox oy oz dyaw dpitch : ℚ) :
    (v.perspective ox oy oz)._initialCameraPosition = v._initialCameraPosition ∧
    (v.perspective ox oy oz)._initialCameraLookAt = v._initialCameraLookAt ∧
    (v.rotate dyaw dpitch)._initialCameraPosition = v._initialCameraPosition ∧
    (v.rotate dyaw dpitch)._initialCameraLookAt = v._initialCameraLookAt :=
  ⟨perspective_basePos v ox oy oz, perspective_baseLook v ox oy oz,
    (rotate_basePose v dyaw dpitch).1, (rotate_basePose v dyaw dpitch).2⟩

/-- Counterexample to claim C2: after a Live session is downgraded to
Fallback, `isLoaded` remains true while `isFallbackMode` is true — the
flags encode two modes at once. -/
theorem c2_counterexample :
    fallbackState.isLoaded = true ∧ fallbackState.isFallbackMode = true := by
  decide

/-- Claim C2 (amended): entering Fallback sets `isFallbackMode` but
leaves `isLoaded` and `isLoading` at their previous values, so the three
flags do not exclusively encode one mode (a formerly Live session stays
flagged loaded in Fallback); a freshly constructed session has all three
flags false, which is Idle. -/
theorem c2_amended_mode_flags (v : SplatViewer) (opts : Options) :
    (v.activateFallbackMode).isFallbackMode = true ∧
    (v.activateFallbackMode).isLoaded = v.isLoaded ∧
    (v.activateFallbackMode).isLoading = v.isLoading ∧
    (mkSplatViewer opts).isLoading = false ∧
    (mkSplatViewer opts).isLoaded = false ∧
    (mkSplatViewer opts).isFallbackMode = false := by
  cases h : v.isFallbackMode
  · obtain ⟨h1, h2, h3, h4, h5, h6⟩ := activateFallbackMode_spec v h
    exact ⟨h2, h4, h5, rfl, rfl, rfl⟩
  · rw [activateFallbackMode_already v h]
    exact ⟨h, rfl, rfl, rfl, rfl, rfl⟩

/-- Counterexample to claim C7: after a failed `load()` the flags read
Idle (not loading, not loaded, not fallback), yet the orphaned renderer
handle lets `pan` mutate session state instead of no-opping. -/
theorem c7_counterexample :
    (orphanState.isLoaded = false ∧ orphanState.isLoading = false ∧
      orphanState.isFallbackMode = false) ∧
    orphanState.pan 1 0 ≠ orphanState := by
  refine ⟨⟨rfl, rfl, rfl⟩, ?_⟩
  intro hcontra
  have h := pan_spec orphanState cam0 1 0 rfl rfl rfl
  rw [hcontra] at h
  have hx := congrArg Vec3.x h
  have h1 : orphanState._initialCameraPosition.x = 0 := rfl
  have h2 : orphanState._panSpeed = 0.1 := rfl
  rw [h1, h2] at hx
  norm_num at hx

/-- Claim C7 (amended): `pan`, `rotate` and `zoom` are silent no-ops in
Loading and Fallback mode, and in any state holding no renderer handle
(in particular a fresh or disposed Idle session); only after a failed
`load()`, where an orphaned handle remains while the flags read Idle,
can they still act on the leftover camera. -/
theorem c7_amended_camera_noops (v : SplatViewer) (dx dy dyaw dpitch dz : ℚ)
    (h : v.isFallbackMode = true ∨ v.isLoading = true ∨ v.viewer = none) :
    v.pan dx dy = v ∧ v.rotate dyaw dpitch = v ∧ v.zoom dz = v := by
  rcases h with h | h | h <;>
    exact ⟨by simp [SplatViewer.pan, SplatViewer.camera, h],
      by simp [SplatViewer.rotate, h],
      by simp [SplatViewer.zoom, SplatViewer.camera, h]⟩

/-- Witness for the amended C7 at the concrete Fallback session. -/
theorem c7_amended_camera_noops_witness :
    fallbackState.pan 3 4 = fallbackState ∧
    fallbackState.rotate 5 6 = fallbackState ∧
    fallbackState.zoom 7 = fallbackState :=
  c7_amended_camera_noops fallbackState 3 4 5 6 7 (Or.inl rfl)

/-- Counterexample to claim C8: `reset()` called in Fallback mode does
not clear the orientation baseline (the calibration reset only happens
in the camera branch). -/
theorem c8_counterexample :
    fbCalState.isFallbackMode = true ∧
    fbCalState._hasBaseOrientation = true ∧
    (fbCalState.reset)._hasBaseOrientation = true :=
  ⟨rfl, rfl, rfl⟩

/-- Claim C8 (amended): `reset()` always clears `currentOffset` to
(0,0); in Fallback (with loading over) it re-applies the zero-offset 2-D
transform to the fallback surface without touching a renderer handle but
leaves the orientation baseline unchanged; in the Live camera branch it
restores the base pose from the originally configured camera options
(not the renderer's resolved pose), moves the camera there, and clears
the orientation baseline. -/
theorem c8_amended_reset (v : SplatViewer) :
    (v.reset)._currentPerspective = { x := 0, y := 0 } ∧
    (v.isFallbackMode = true → v.isLoading = false →
      v.reset = SplatViewer.applyFallbackPerspective
        { v with _currentPerspective := { x := 0, y := 0 } } ∧
      (v.reset).viewer = v.viewer ∧
      (v.reset)._hasBaseOrientation = v._hasBaseOrientation) ∧
    (∀ cam : Camera, v.isLoading = false → v.isFallbackMode = false →
      v.camera = some cam →
      (v.reset)._initialCameraPosition = v.options.cameraPosition ∧
      (v.reset)._initialCameraLookAt = v.options.cameraLookAt ∧
      (v.reset).camera =
        some (Camera.mk v.options.cameraPosition v.options.cameraLookAt cam.fov) ∧
      (v.reset)._hasBaseOrientation = false) := by
  refine ⟨?_, ?_, ?_⟩
  · simp only [SplatViewer.reset]
    split
    · simp
    · split
      · simp
      · split
        · simp
        · simp [SplatViewer.calibrateDeviceMotion]
  · intro hfb hnl
    have hr : v.reset = SplatViewer.applyFallbackPerspective
        { v with _currentPerspective := { x := 0, y := 0 } } := by
      simp [SplatViewer.reset, hfb, hnl]
    refine ⟨hr, ?_, ?_⟩ <;> rw [hr] <;> simp
  · intro cam hl hf hcam
    rcases hvw : v.viewer with _ | vw
    · rw [SplatViewer.camera, hvw] at hcam
      simp at hcam
    · have hc : vw.camera = some cam := by
        rw [SplatViewer.camera, hvw] at hcam
        simpa using hcam
      refine ⟨?_, ?_, ?_, ?_⟩ <;>
        simp [SplatViewer.reset, hl, hf, SplatViewer.camera, hvw, hc,
          SplatViewer.withCamera, SplatViewer.calibrateDeviceMotion]

/-- Witness for the amended C8 at the concrete Fallback session holding
a baseline, and at the concrete Live session. -/
theorem c8_amended_reset_witness :
    (fbCalState.reset).viewer = fbCalState.viewer ∧
    (fbCalState.reset)._hasBaseOrientation = fbCalState._hasBaseOrientation :=
  ⟨((c8_amended_reset fbCalState).2.1 rfl rfl).2.1,
    ((c8_amended_reset fbCalState).2.1 rfl rfl).2.2⟩

/-- Claim C6: `perspective(ox, oy, oz)` applied with a camera present,
not loading and not in fallback moves the camera to the stored base
position plus (ox·intensity, oy·intensity, oz·intensity·0.5) and resets
the look-at target exactly to the stored base look-at, so the gaze
target never changes under any perspective offset. -/
theorem c6_perspective_live (v : SplatViewer) (vw : Viewer) (cam : Camera)
    (ox oy oz : ℚ)
    (hl : v.isLoading = false) (hf : v.isFallbackMode = false)
    (hvw : v.viewer = some vw) (hcam : vw.camera = some cam) :
    (v.perspective ox oy oz).camera =
      some (Camera.mk
        (Vec3.mk (v._initialCameraPosition.x + ox * v.options.perspectiveIntensity)
          (v._initialCameraPosition.y + oy * v.options.perspectiveIntensity)
          (v._initialCameraPosition.z + oz * v.options.perspectiveIntensity * 0.5))
        v._initialCameraLookAt cam.fov) := by
  simp [SplatViewer.perspective, SplatViewer.camera, SplatViewer.withCamera,
    hl, hf, hvw, hcam]

/-- Witness for C6 at the concrete Live session. -/
theorem c6_perspective_live_witness :
    (liveState.perspective 1 1 1).camera =
      some (Camera.mk
        (Vec3.mk (liveState._initialCameraPosition.x + 1 * liveState.options.perspectiveIntensity)
          (liveState._initialCameraPosition.y + 1 * liveState.options.perspectiveIntensity)
          (liveState._initialCameraPosition.z + 1 * liveState.options.perspectiveIntensity * 0.5))
        liveState._initialCameraLookAt camLive.fov) :=
  c6_perspective_live liveState
    (Viewer.mk (some camLive) (some (Controls.mk 0 0)) true) camLive 1 1 1
    rfl rfl rfl rfl

/-- The placeholder transform applier writes a scale of
`1 + |x·0.02| + |y·0.02|`. -/
theorem placeholderScale_eq (w : SplatViewer) (s : Surface)
    (hs : w._placeholder = some s) :
    (w.applyPlaceholderPerspective).placeholderScale =
      some (1 + |w._currentPerspective.x * 0.02| + |w._currentPerspective.y * 0.02|) := by
  simp [SplatViewer.applyPlaceholderPerspective, SplatViewer.placeholderScale, hs]

/-- The fallback transform applier writes a scale of
`1 + |x·0.02| + |y·0.02|`. -/
theorem fallbackScale_eq (w : SplatViewer) (s : Surface)
    (hs : w._fallbackImage = some s) :
    (w.applyFallbackPerspective).fallbackScale =
      some (1 + |w._currentPerspective.x * 0.02| + |w._currentPerspective.y * 0.02|) := by
  simp [SplatViewer.applyFallbackPerspective, SplatViewer.fallbackScale, hs]

/-- Claim C9: for offsets (x,y) in [-1,1]², the scale factor of the 2-D
transform produced for both the placeholder and the fallback surface
equals 1 + 0.02·(|x|+|y|); it is exactly 1 at (0,0) and monotonically
non-decreasing in |x|+|y|. -/
theorem c9_scale_factor (v : SplatViewer) (ph fb : Surface) (x1 y1 x2 y2 : ℚ)
    (hph : v._placeholder = some ph) (hfb : v._fallbackImage = some fb)
    (hxlo : -1 ≤ v._currentPerspective.x) (hxhi : v._currentPerspective.x ≤ 1)
    (hylo : -1 ≤ v._currentPerspective.y) (hyhi : v._currentPerspective.y ≤ 1)
    (hmono : |x1| + |y1| ≤ |x2| + |y2|) :
    (v.applyPlaceholderPerspective).placeholderScale =
      some (1 + 0.02 * (|v._currentPerspective.x| + |v._currentPerspective.y|)) ∧
    (v.applyFallbackPerspective).fallbackScale =
      some (1 + 0.02 * (|v._currentPerspective.x| + |v._currentPerspective.y|)) ∧
    (v._currentPerspective.x = 0 → v._currentPerspective.y = 0 →
      (v.applyPlaceholderPerspective).placeholderScale = some 1) ∧
    1 + 0.02 * (|x1| + |y1|) ≤ 1 + 0.02 * (|x2| + |y2|) := by
  have key : ∀ a b : ℚ, 1 + |a * 0.02| + |b * 0.02| = 1 + 0.02 * (|a| + |b|) := by
    intro a b
    rw [abs_mul, abs_mul, abs_of_nonneg (by norm_num : (0:ℚ) ≤ 0.02)]
    ring
  refine ⟨?_, ?_, ?_, ?_⟩
  · rw [placeholderScale_eq v ph hph, key]
  · rw [fallbackScale_eq v fb hfb, key]
  · intro hx0 hy0
    rw [placeholderScale_eq v ph hph, key, hx0, hy0]
    norm_num
  · have h2 : (0.02 : ℚ) * (|x1| + |y1|) ≤ 0.02 * (|x2| + |y2|) := by
      apply mul_le_mul_of_nonneg_left hmono
      norm_num
    linarith

/-- Witness for C9 at a concrete session holding both surfaces with the
zero offset. -/
theorem c9_scale_factor_witness :
    (orphanState.applyPlaceholderPerspective).placeholderScale =
      some (1 + 0.02 * (|orphanState._currentPerspective.x| +
        |orphanState._currentPerspective.y|)) :=
  (c9_scale_factor orphanState surfPh surfFb 0 0 1 1 rfl rfl
    (by norm_num [show orphanState._currentPerspective.x = 0 from rfl])
    (by norm_num [show orphanState._currentPerspective.x = 0 from rfl])
    (by norm_num [show orphanState._currentPerspective.y = 0 from rfl])
    (by norm_num [show orphanState._currentPerspective.y = 0 from rfl])
    (by norm_num)).1

/-- Claim C5: for an active session (loading, loaded or fallback), the
first accepted orientation sample after (re)calibration is captured as
the baseline and produces no perspective update; every later sample with
both axis readings present routes `clamp(sample − baseline, −30, 30)/30 ×
0.3` per axis into `perspective`; a 10° delta normalises to 0.1 and a
50° delta clamps to the maximum 0.3; samples with a null axis reading
change nothing. -/
theorem c5_orientation_calibrator (v : SplatViewer) (b g b2 g2 : ℚ)
    (hactive : v.isLoading = true ∨ v.isLoaded = true ∨ v.isFallbackMode = true) :
    (v._hasBaseOrientation = false →
      v.deviceMotionSample (some b) (some g) =
        { v with
          _baseOrientation := { beta := b, gamma := g }
          _hasBaseOrientation := true }) ∧
    (v._hasBaseOrientation = true →
      v.deviceMotionSample (some b2) (some g2) =
        v.perspective (max (-30) (min 30 (g2 - v._baseOrientation.gamma)) / 30 * 0.3)
          (max (-30) (min 30 (b2 - v._baseOrientation.beta)) / 30 * 0.3) 0) ∧
    (max (-30 : ℚ) (min 30 10) / 30 * 0.3 = 0.1) ∧
    (max (-30 : ℚ) (min 30 50) / 30 * 0.3 = 0.3) ∧
    v.deviceMotionSample none (some g) = v ∧
    v.deviceMotionSample (some b) none = v ∧
    v.deviceMotionSample none none = v := by
  refine ⟨?_, ?_, ?_, ?_, ?_, ?_, ?_⟩
  · intro hb
    rcases hactive with h | h | h <;> simp [SplatViewer.deviceMotionSample, h, hb]
  · intro hb
    rcases hactive with h | h | h <;> simp [SplatViewer.deviceMotionSample, h, hb]
  · norm_num [min_def, max_def]
  · norm_num [min_def, max_def]
  · rcases hactive with h | h | h <;> simp [SplatViewer.deviceMotionSample, h]
  · rcases hactive with h | h | h <;> simp [SplatViewer.deviceMotionSample, h]
  · rcases hactive with h | h | h <;> simp [SplatViewer.deviceMotionSample, h]

/-- Witness for C5 at the concrete calibrated Live session. -/
theorem c5_orientation_calibrator_witness :
    vCal.deviceMotionSample (some 12) (some 17) =
      vCal.perspective (max (-30) (min 30 ((17:ℚ) - vCal._baseOrientation.gamma)) / 30 * 0.3)
        (max (-30) (min 30 ((12:ℚ) - vCal._baseOrientation.beta)) / 30 * 0.3) 0 :=
  ((c5_orientation_calibrator vCal 0 0 12 17 (Or.inr (Or.inl rfl))).2.1) rfl

/-- Claim C3: in a Live session with a non-negative configured threshold
and an `onFallback` callback, the first monitor tick whose sample
exceeds the threshold drops the renderer handle, enters Fallback,
cancels the monitor timer, and fires the fallback notification exactly
once — later ticks and a later explicit `forceFallback()` never fire it
again. -/
theorem c3_memory_downgrade (v : SplatViewer) (m : ℚ)
    (hloaded : v.isLoaded = true)
    (hnf : v.isFallbackMode = false)
    (hcb : v.options.onFallback = true)
    (hthr : 0 ≤ v.options.memoryThresholdMB)
    (hm : v.options.memoryThresholdMB < m) :
    (v.memoryCheckTick (some m)).viewer = none ∧
    (v.memoryCheckTick (some m)).isFallbackMode = true ∧
    (v.memoryCheckTick (some m))._memoryCheckTimer = false ∧
    (v.memoryCheckTick (some m)).onFallbackCalls = v.onFallbackCalls + 1 ∧
    (∀ s : Option ℚ,
      ((v.memoryCheckTick (some m)).memoryCheckTick s).onFallbackCalls =
        (v.memoryCheckTick (some m)).onFallbackCalls) ∧
    ((v.memoryCheckTick (some m)).forceFallback).onFallbackCalls =
      (v.memoryCheckTick (some m)).onFallbackCalls := by
  have hm0 : m ≠ 0 := (lt_of_le_of_lt hthr hm).ne'
  have htick : v.memoryCheckTick (some m) = v.activateFallbackMode := by
    simp [SplatViewer.memoryCheckTick, hm0, hm]
  obtain ⟨h1, h2, h3, _, _, h6⟩ := activateFallbackMode_spec v hnf
  rw [htick]
  have hcalls : (v.activateFallbackMode).onFallbackCalls = v.onFallbackCalls + 1 := by
    rw [h6, if_pos hcb]
  refine ⟨h1, h2, h3, hcalls, ?_, ?_⟩
  · intro s
    cases s with
    | none => rfl
    | some m2 =>
      by_cases hc : m2 ≠ 0 ∧ (v.activateFallbackMode).options.memoryThresholdMB < m2
      · simp [SplatViewer.memoryCheckTick, hc, activateFallbackMode_already _ h2]
      · simp [SplatViewer.memoryCheckTick, hc]
  · simp [SplatViewer.forceFallback, activateFallbackMode_already _ h2]

/-- Witness for C3 at the concrete Live session with a 600 MB sample
against the 512 MB threshold. -/
theorem c3_memory_downgrade_witness :
    (liveState.memoryCheckTick (some 600)).onFallbackCalls =
      liveState.onFallbackCalls + 1 :=
  (c3_memory_downgrade liveState 600 rfl rfl rfl
    (by rw [show liveState.options.memoryThresholdMB = 512 from rfl]; norm_num)
    (by rw [show liveState.options.memoryThresholdMB = 512 from rfl]; norm_num)).2.2.2.1

/-- Counterexample to claim C1: a `load()` whose renderer-service scene
load rejects surfaces the error, but the renderer handle created during
that load is still held by the session and the placeholder/fallback
surfaces created during that load are still present. -/
theorem c1_counterexample :
    ((mkSplatViewer demoOptions).load none failEnv).2.isSome = true ∧
    ((mkSplatViewer demoOptions).load none failEnv).1.viewer.isSome = true ∧
    ((mkSplatViewer demoOptions).load none failEnv).1._placeholder.isSome = true ∧
    ((mkSplatViewer demoOptions).load none failEnv).1._fallbackImage.isSome = true :=
  ⟨rfl, rfl, rfl, rfl⟩

/-- A `load()` whose renderer-service scene load rejects (direct-URL
path with a placeholder image): the error is surfaced and `isLoading`
cleared, but the created handle and surfaces survive. -/
theorem load_sceneLoadFailure_spec (v : SplatViewer) (ply : Option String)
    (env : LoadEnv) (e img : String)
    (hscene : v.options.sceneId = none)
    (himg : v.options.placeholderImage = some img)
    (hload : env.sceneLoadError = some e)
    (hloaded : v.isLoaded = false) (hfb : v.isFallbackMode = false) :
    (v.load ply env).2 = some e ∧
    (v.load ply env).1.isLoading = false ∧
    (v.load ply env).1.isLoaded = false ∧
    (v.load ply env).1.isFallbackMode = false ∧
    (v.load ply env).1.viewer =
      some (Viewer.mk env.rendererCamera env.rendererControls false) ∧
    (v.load ply env).1._placeholder.isSome = true ∧
    (v.load ply env).1._fallbackImage.isSome = true := by
  rcases hplyArg : ply with _ | u <;>
    rcases hbar : v.options.showLoadingBar with _ | _ <;>
      rcases hvply : v.options.plyUrl with _ | u2 <;>
        refine ⟨?_, ?_, ?_, ?_, ?_, ?_, ?_⟩ <;>
          simp [SplatViewer.load, SplatViewer.loadCatch, SplatViewer.setupPlaceholder,
            SplatViewer.setupFallbackImage, hscene, himg, hload, hloaded, hfb,
            hplyArg, hbar, hvply]

/-- A `load()` whose descriptor-lookup (asset resolution) rejects: the
catch runs before any surface or renderer handle is created, so the
whole effect of the call is clearing `isLoading` and surfacing the
error. -/
theorem load_fetchFailure_spec (w : SplatViewer) (ply : Option String)
    (env : LoadEnv) (e sid : String)
    (hsid : w.options.sceneId = some sid)
    (hfetch : env.fetchSceneResult = Except.error e) :
    (w.load ply env).1 = { w with isLoading := false } ∧
    (w.load ply env).2 = some e := by
  constructor <;>
    simp [SplatViewer.load, SplatViewer.loadCatch, hsid, hfetch]

/-- Claim C1 (amended): whenever `load()` fails, the error is surfaced
to the caller and `isLoading` is cleared, so with `isLoaded` and
`isFallbackMode` still false the flags encode Idle again.  When the
failure is the asset resolution (descriptor lookup) rejecting, it
happens before any surface or renderer handle is created, and a fresh
session is left with no renderer handle and no placeholder/fallback
surfaces, exactly as the original claim states.  But when the
renderer-service scene load rejects, the renderer handle created during
that `load()` remains held by the session and the placeholder/fallback
surfaces created during that `load()` are not removed. -/
theorem c1_amended_load_failure (v w : SplatViewer) (ply plyw : Option String)
    (env envw : LoadEnv) (e ew img sid : String)
    (hscene : v.options.sceneId = none)
    (himg : v.options.placeholderImage = some img)
    (hload : env.sceneLoadError = some e)
    (hloaded : v.isLoaded = false) (hfb : v.isFallbackMode = false)
    (hwsid : w.options.sceneId = some sid)
    (hwfetch : envw.fetchSceneResult = Except.error ew)
    (hwloaded : w.isLoaded = false) (hwfb : w.isFallbackMode = false)
    (hwv : w.viewer = none) (hwph : w._placeholder = none)
    (hwfi : w._fallbackImage = none) :
    ((v.load ply env).2 = some e ∧
     (v.load ply env).1.isLoading = false ∧
     (v.load ply env).1.isLoaded = false ∧
     (v.load ply env).1.isFallbackMode = false ∧
     (v.load ply env).1.viewer =
       some (Viewer.mk env.rendererCamera env.rendererControls false) ∧
     (v.load ply env).1._placeholder.isSome = true ∧
     (v.load ply env).1._fallbackImage.isSome = true) ∧
    ((w.load plyw envw).2 = some ew ∧
     (w.load plyw envw).1.isLoading = false ∧
     (w.load plyw envw).1.isLoaded = false ∧
     (w.load plyw envw).1.isFallbackMode = false ∧
     (w.load plyw envw).1.viewer = none ∧
     (w.load plyw envw).1._placeholder = none ∧
     (w.load plyw envw).1._fallbackImage = none) := by
  refine ⟨load_sceneLoadFailure_spec v ply env e img hscene himg hload hloaded hfb, ?_⟩
  obtain ⟨h1, h2⟩ := load_fetchFailure_spec w plyw envw ew sid hwsid hwfetch
  rw [h1]
  exact ⟨h2, rfl, hwloaded, hwfb, hwv, hwph, hwfi⟩

/-- Witness for the amended C1 at a concrete scene-load rejection and a
concrete asset-resolution rejection. -/
theorem c1_amended_load_failure_witness :
    ((mkSplatViewer demoOptions).load none failEnv).2 = some "scene load rejected" ∧
    ((mkSplatViewer apiOptions).load none fetchFailEnv).2 = some "fetch failed" ∧
    ((mkSplatViewer apiOptions).load none fetchFailEnv).1.viewer = none := by
  have h := c1_amended_load_failure (mkSplatViewer demoOptions) (mkSplatViewer apiOptions)
    none none failEnv fetchFailEnv "scene load rejected" "fetch failed" "photo.jpg" "scene-1"
    rfl rfl rfl rfl rfl rfl rfl rfl rfl rfl rfl rfl
  exact ⟨h.1.1, h.2.1, h.2.2.2.2.2.1⟩

end ParallaxPhoto
